import Mathlib

/- Verification of the open62541 PubSub control plane (ReaderGroup / Connection
   lifecycle) against its natural-language specification.

   The model is a shallow embedding of src/src/pubsub/ua_pubsub_readergroup.c and
   src/src/pubsub/ua_pubsub_connection.c. Collaborator calls (EventLoop, transport
   connect, NodeStore, SecurityPolicy, codec) are parameters: their outcomes are
   passed in as arguments. The EventLoop's set of registered cyclic callbacks is
   modelled as a list of callback ids. The application stateChangeCallback is
   modelled by returning the list of notifications a registered callback would
   receive. Machine integers that matter only as opaque codes (status codes,
   identifiers, state enum values) are Nat; the connection's freeze counter is Int
   so that decrements are not truncated. -/

/- UA_PubSubState enum values. The header defining the enum is not part of the
   sources; the numbering follows the upstream declaration (Disabled = 0, so a
   calloc-initialised entity starts Disabled). Only distinctness of the five
   values matters to the control flow modelled here. -/

def UA_PUBSUBSTATE_DISABLED : Nat := 0

def UA_PUBSUBSTATE_PAUSED : Nat := 1

def UA_PUBSUBSTATE_OPERATIONAL : Nat := 2

def UA_PUBSUBSTATE_ERROR : Nat := 3

def UA_PUBSUBSTATE_PREOPERATIONAL : Nat := 4

/- UA_StatusCode values (standard OPC UA numeric codes). -/

def UA_STATUSCODE_GOOD : Nat := 0

def UA_STATUSCODE_BADINTERNALERROR : Nat := 0x80020000

def UA_STATUSCODE_BADOUTOFMEMORY : Nat := 0x80030000

def UA_STATUSCODE_BADRESOURCEUNAVAILABLE : Nat := 0x80040000

def UA_STATUSCODE_BADNOTSUPPORTED : Nat := 0x803D0000

def UA_STATUSCODE_BADNOTFOUND : Nat := 0x803E0000

def UA_STATUSCODE_BADNOTIMPLEMENTED : Nat := 0x80400000

def UA_STATUSCODE_BADCONFIGURATIONERROR : Nat := 0x80890000

def UA_STATUSCODE_BADINVALIDARGUMENT : Nat := 0x80AB0000

/-- One field of a DataSetReader's dataSetMetaData, reduced to the attributes the
RT-freeze validation in UA_ReaderGroup_freezeConfiguration reads: whether the
dataType NodeId is String/ByteString, the maxStringLength, and whether the
dataType is numeric or Boolean. -/
structure UA_FieldMetaData where
  isStringOrByteString : Bool
  maxStringLength : Nat
  isNumericOrBoolean : Bool
deriving DecidableEq

/-- One target variable of the subscribedDataSetTarget. hasExternalBackend models
that UA_NODESTORE_GET finds the target node and its valueBackend.backendType is
EXTERNAL; externalDataValueSet models that tv->externalDataValue was cached. -/
structure UA_FieldTargetVariable where
  hasExternalBackend : Bool
  externalDataValueSet : Bool
deriving DecidableEq

/-- UA_DataSetReader, reduced to the attributes read by the ReaderGroup code in
the sources: state, configurationFrozen, bufferedMessage (bufferedMessageSet
models bufferedMessage.nm != NULL), the messageSettings type check (msgIsUadp),
the publisherId pointerFree check, and the metadata fields with their target
variables (indexed in parallel, as in the C arrays). -/
structure UA_DataSetReader where
  identifier : Nat
  state : Nat
  configurationFrozen : Bool
  bufferedMessageSet : Bool
  msgIsUadp : Bool
  publisherIdPointerFree : Bool
  fields : List UA_FieldMetaData
  targetVariables : List UA_FieldTargetVariable
deriving DecidableEq

/-- UA_ReaderGroupConfig, reduced to the members the control-plane code reads.
subscribingInterval is UA_Duration (a double) in C; only its sign and value as a
default matter here, so it is Int. -/
structure UA_ReaderGroupConfig where
  subscribingInterval : Int
  timeout : Nat
  enableBlockingSocket : Bool
  hasAddCustomCallback : Bool
  rtLevelFixedSize : Bool
  encodingJson : Bool
  hasSecurityPolicy : Bool
deriving DecidableEq

/-- UA_ReaderGroup. securityPolicyContextSet models securityPolicyContext != NULL;
keyStorageActive models keyStorage != NULL && keyStorage->currentItem != NULL. -/
structure UA_ReaderGroup where
  identifier : Nat
  state : Nat
  configurationFrozen : Bool
  subscribeCallbackId : Nat
  securityTokenId : Nat
  nonceSequenceNumber : Nat
  securityPolicyContextSet : Bool
  keyStorageActive : Bool
  config : UA_ReaderGroupConfig
  readers : List UA_DataSetReader
deriving DecidableEq

/-- UA_PubSubConnection, reduced to the members the ReaderGroup code reads. The
WriterGroup side is symmetric and not referenced by the claims, so it is not
modelled. configurationFreezeCounter is Int so decrements are exact. -/
structure UA_PubSubConnection where
  identifier : Nat
  state : Nat
  configurationFreezeCounter : Int
  readerGroups : List UA_ReaderGroup
deriving DecidableEq

/-- The PubSub manager: the ordered list of connections (TAILQ insertion order,
newest first, which is also the iteration order of the lookup functions). -/
structure UA_PubSubManager where
  connections : List UA_PubSubConnection
deriving DecidableEq

/-- One invocation of the application stateChangeCallback: the entity identifier,
the state value passed, and the cause status code. -/
structure CbEvent where
  entity : Nat
  value : Nat
  cause : Nat
deriving DecidableEq

/-- Result of UA_ReaderGroup_setPubSubState: the updated group, the returned
status code, the EventLoop's registered callback ids, and the notifications a
registered stateChangeCallback receives. -/
structure RGEffect where
  rg : UA_ReaderGroup
  ret : Nat
  el : List Nat
  events : List CbEvent
deriving DecidableEq

/-- Result of UA_PubSubConnection_setPubSubState. -/
structure ConnEffect where
  conn : UA_PubSubConnection
  ret : Nat
  el : List Nat
  events : List CbEvent
deriving DecidableEq

/-- Modelled from the spec: UA_DataSetReader_setPubSubState lives in
ua_pubsub_reader.c, which is not among the sources. Per the spec's propagation
rule, a parent-driven transition sets every child reader to the same state. -/
def UA_DataSetReader_setPubSubState (r : UA_DataSetReader) (s : Nat) : UA_DataSetReader :=
  { r with state := s }

/-- UA_ReaderGroup_removeSubscribeCallback: if a cyclic callback is registered,
remove it from the EventLoop; then zero the id. -/
def UA_ReaderGroup_removeSubscribeCallback (el : List Nat) (rg : UA_ReaderGroup) :
    UA_ReaderGroup × List Nat :=
  let el1 := if rg.subscribeCallbackId ≠ 0 then el.filter (fun i => i != rg.subscribeCallbackId) else el
  ({ rg with subscribeCallbackId := 0 }, el1)

/-- UA_ReaderGroup_addSubscribeCallback: re-entrant registration is refused with
BadInternalError; otherwise the EventLoop registers a cyclic callback (modelled
as always succeeding with the fresh id supplied by the caller). The immediate
synchronous first tick (skipped for blocking sockets) drives the receive path,
which is a collaborator with no effect on the control state modelled here. -/
def UA_ReaderGroup_addSubscribeCallback (freshId : Nat) (el : List Nat) (rg : UA_ReaderGroup) :
    UA_ReaderGroup × List Nat × Nat :=
  if rg.subscribeCallbackId ≠ 0 then (rg, el, UA_STATUSCODE_BADINTERNALERROR)
  else ({ rg with subscribeCallbackId := freshId }, freshId :: el, UA_STATUSCODE_GOOD)

/-- UA_ReaderGroup_setPubSubState_disable, switching on the stored state. Note
that a Paused group is left Paused (the case only breaks). -/
def UA_ReaderGroup_setPubSubState_disable (el : List Nat) (rg : UA_ReaderGroup) (cause : Nat) :
    UA_ReaderGroup × List Nat × Nat :=
  if rg.state = UA_PUBSUBSTATE_DISABLED then (rg, el, UA_STATUSCODE_GOOD)
  else if rg.state = UA_PUBSUBSTATE_PAUSED then (rg, el, UA_STATUSCODE_GOOD)
  else if rg.state = UA_PUBSUBSTATE_OPERATIONAL ∨ rg.state = UA_PUBSUBSTATE_PREOPERATIONAL then
    let p := UA_ReaderGroup_removeSubscribeCallback el rg
    ({ p.1 with
        state := UA_PUBSUBSTATE_DISABLED
        readers := p.1.readers.map (fun r => UA_DataSetReader_setPubSubState r UA_PUBSUBSTATE_DISABLED) },
     p.2, UA_STATUSCODE_GOOD)
  else if rg.state = UA_PUBSUBSTATE_ERROR then (rg, el, UA_STATUSCODE_GOOD)
  else (rg, el, UA_STATUSCODE_BADINTERNALERROR)

/-- UA_ReaderGroup_setPubSubState_paused: only Disabled may move to Paused; from
Operational/PreOperational/Error the call returns BadNotSupported unchanged. -/
def UA_ReaderGroup_setPubSubState_paused (el : List Nat) (rg : UA_ReaderGroup) :
    UA_ReaderGroup × List Nat × Nat :=
  if rg.state = UA_PUBSUBSTATE_DISABLED then
    ({ rg with state := UA_PUBSUBSTATE_PAUSED }, el, UA_STATUSCODE_GOOD)
  else if rg.state = UA_PUBSUBSTATE_PAUSED then (rg, el, UA_STATUSCODE_GOOD)
  else if rg.state = UA_PUBSUBSTATE_OPERATIONAL ∨ rg.state = UA_PUBSUBSTATE_PREOPERATIONAL then
    (rg, el, UA_STATUSCODE_BADNOTSUPPORTED)
  else if rg.state = UA_PUBSUBSTATE_ERROR then (rg, el, UA_STATUSCODE_BADNOTSUPPORTED)
  else (rg, el, UA_STATUSCODE_BADINTERNALERROR)

/-- UA_ReaderGroup_setPubSubState_preoperational: Disabled/Paused acquire the
subscribe callback (its return value is ignored, as in the source). -/
def UA_ReaderGroup_setPubSubState_preoperational (freshId : Nat) (el : List Nat)
    (rg : UA_ReaderGroup) : UA_ReaderGroup × List Nat × Nat :=
  if rg.state = UA_PUBSUBSTATE_DISABLED ∨ rg.state = UA_PUBSUBSTATE_PAUSED then
    let p := UA_ReaderGroup_addSubscribeCallback freshId el
               { rg with state := UA_PUBSUBSTATE_PREOPERATIONAL }
    (p.1, p.2.1, UA_STATUSCODE_GOOD)
  else if rg.state = UA_PUBSUBSTATE_PREOPERATIONAL then (rg, el, UA_STATUSCODE_GOOD)
  else if rg.state = UA_PUBSUBSTATE_OPERATIONAL then (rg, el, UA_STATUSCODE_GOOD)
  else if rg.state = UA_PUBSUBSTATE_ERROR then (rg, el, UA_STATUSCODE_BADNOTSUPPORTED)
  else (rg, el, UA_STATUSCODE_BADINTERNALERROR)

/-- UA_ReaderGroup_setPubSubState_operational. The new state is computed first
(degrading to PreOperational when there is no reader, or in frozen RT fixed-size
mode before the offset table is built) and stored before the switch on the old
state; a Paused old state falls into the default case, which forces Error. -/
def UA_ReaderGroup_setPubSubState_operational (el : List Nat) (rg : UA_ReaderGroup) (cause : Nat) :
    UA_ReaderGroup × List Nat × Nat :=
  let st :=
    match rg.readers.head? with
    | none => UA_PUBSUBSTATE_PREOPERATIONAL
    | some d =>
        if rg.config.rtLevelFixedSize ∧ rg.configurationFrozen ∧ d.bufferedMessageSet = false
        then UA_PUBSUBSTATE_PREOPERATIONAL else UA_PUBSUBSTATE_OPERATIONAL
  let rg1 := { rg with state := st }
  if rg.state = UA_PUBSUBSTATE_DISABLED then (rg1, el, UA_STATUSCODE_BADNOTSUPPORTED)
  else if rg.state = UA_PUBSUBSTATE_OPERATIONAL ∨ rg.state = UA_PUBSUBSTATE_PREOPERATIONAL then
    ({ rg1 with readers := rg1.readers.map (fun r => UA_DataSetReader_setPubSubState r st) },
     el, UA_STATUSCODE_GOOD)
  else if rg.state = UA_PUBSUBSTATE_ERROR then (rg1, el, UA_STATUSCODE_BADNOTSUPPORTED)
  else ({ rg1 with state := UA_PUBSUBSTATE_ERROR }, el, UA_STATUSCODE_BADINTERNALERROR)

/-- UA_ReaderGroup_setPubSubState_error: Operational/PreOperational cancel the
subscribe callback and propagate Error to the readers; afterwards the state is
set to Error (also from Disabled and Paused). -/
def UA_ReaderGroup_setPubSubState_error (el : List Nat) (rg : UA_ReaderGroup) (cause : Nat) :
    UA_ReaderGroup × List Nat × Nat :=
  if rg.state = UA_PUBSUBSTATE_DISABLED then
    ({ rg with state := UA_PUBSUBSTATE_ERROR }, el, UA_STATUSCODE_GOOD)
  else if rg.state = UA_PUBSUBSTATE_PAUSED then
    ({ rg with state := UA_PUBSUBSTATE_ERROR }, el, UA_STATUSCODE_GOOD)
  else if rg.state = UA_PUBSUBSTATE_OPERATIONAL ∨ rg.state = UA_PUBSUBSTATE_PREOPERATIONAL then
    let p := UA_ReaderGroup_removeSubscribeCallback el rg
    ({ p.1 with
        state := UA_PUBSUBSTATE_ERROR
        readers := p.1.readers.map (fun r => UA_DataSetReader_setPubSubState r UA_PUBSUBSTATE_ERROR) },
     p.2, UA_STATUSCODE_GOOD)
  else if rg.state = UA_PUBSUBSTATE_ERROR then (rg, el, UA_STATUSCODE_GOOD)
  else (rg, el, UA_STATUSCODE_BADINTERNALERROR)

/-- Dispatch of UA_ReaderGroup_setPubSubState on the target state. The initial
value of ret in the source is BadInvalidArgument, which the default (unknown
target state) case leaves in place. -/
def rgDispatch (freshId : Nat) (el : List Nat) (rg : UA_ReaderGroup) (state cause : Nat) :
    UA_ReaderGroup × List Nat × Nat :=
  if state = UA_PUBSUBSTATE_DISABLED then UA_ReaderGroup_setPubSubState_disable el rg cause
  else if state = UA_PUBSUBSTATE_PAUSED then UA_ReaderGroup_setPubSubState_paused el rg
  else if state = UA_PUBSUBSTATE_PREOPERATIONAL then
    UA_ReaderGroup_setPubSubState_preoperational freshId el rg
  else if state = UA_PUBSUBSTATE_OPERATIONAL then
    UA_ReaderGroup_setPubSubState_operational el rg cause
  else if state = UA_PUBSUBSTATE_ERROR then UA_ReaderGroup_setPubSubState_error el rg cause
  else (rg, el, UA_STATUSCODE_BADINVALIDARGUMENT)

/-- UA_ReaderGroup_setPubSubState. After the dispatch the application callback is
invoked when the requested state differs from the state stored at entry, and the
value passed to the callback is the group's state after the dispatch. -/
def UA_ReaderGroup_setPubSubState (freshId : Nat) (el : List Nat) (rg : UA_ReaderGroup)
    (state cause : Nat) : RGEffect :=
  let d := rgDispatch freshId el rg state cause
  { rg := d.1, ret := d.2.2, el := d.2.1,
    events := if state = rg.state then [] else [⟨d.1.identifier, d.1.state, cause⟩] }

/-- The loop in UA_PubSubConnection_setPubSubState disabling every ReaderGroup of
the connection (WriterGroups are symmetric and not modelled): each group gets
UA_ReaderGroup_setPubSubState with cause BadResourceUnavailable, threading the
EventLoop registrations and collecting the callback notifications in order. -/
def disableGroups (freshId state : Nat) : List Nat → List UA_ReaderGroup →
    List UA_ReaderGroup × List Nat × List CbEvent
  | el, [] => ([], el, [])
  | el, g :: gs =>
    let e := UA_ReaderGroup_setPubSubState freshId el g state UA_STATUSCODE_BADRESOURCEUNAVAILABLE
    let rest := disableGroups freshId state e.el gs
    (e.rg :: rest.1, rest.2.1, e.events ++ rest.2.2)

/-- The Error/Paused/Disabled branch of UA_PubSubConnection_setPubSubState as a
complete call (this is also what the recursive call on a failed connect
executes): if the state is unchanged nothing happens; otherwise the state is
stored, the transport is disconnected (collaborator), all ReaderGroups are
disabled, and the application is notified with the requested state. -/
def connSetStateDown (freshId : Nat) (el : List Nat) (c : UA_PubSubConnection)
    (state cause : Nat) : ConnEffect :=
  if state = c.state then ⟨c, UA_STATUSCODE_GOOD, el, []⟩
  else
    let dg := disableGroups freshId state el c.readerGroups
    ⟨{ c with
        state := state
        readerGroups := dg.1 },
      UA_STATUSCODE_GOOD, dg.2.1, dg.2.2 ++ [⟨c.identifier, state, cause⟩]⟩

/-- UA_PubSubConnection_setPubSubState. connectRes is the status returned by the
collaborator UA_PubSubConnection_connect. Requesting PreOperational/Operational
stores Operational when already PreOperational/Operational and PreOperational
otherwise, then connects; a failed connect runs the Error transition recursively
(with the connect status as cause) and the outer call additionally notifies the
application with the originally requested state when the stored state differs
from the state at entry. An unknown target state returns BadInternalError before
the notification check. -/
def UA_PubSubConnection_setPubSubState (connectRes freshId : Nat) (el : List Nat)
    (c : UA_PubSubConnection) (state cause : Nat) : ConnEffect :=
  if state = UA_PUBSUBSTATE_ERROR ∨ state = UA_PUBSUBSTATE_PAUSED ∨
     state = UA_PUBSUBSTATE_DISABLED then
    connSetStateDown freshId el c state cause
  else if state = UA_PUBSUBSTATE_PREOPERATIONAL ∨ state = UA_PUBSUBSTATE_OPERATIONAL then
    let newSt := if c.state = UA_PUBSUBSTATE_PREOPERATIONAL ∨ c.state = UA_PUBSUBSTATE_OPERATIONAL
                 then UA_PUBSUBSTATE_OPERATIONAL else UA_PUBSUBSTATE_PREOPERATIONAL
    let c1 := { c with state := newSt }
    if connectRes = UA_STATUSCODE_GOOD then
      ⟨c1, UA_STATUSCODE_GOOD, el,
        if newSt = c.state then [] else [⟨c.identifier, state, cause⟩]⟩
    else
      let inner := connSetStateDown freshId el c1 UA_PUBSUBSTATE_ERROR connectRes
      ⟨inner.conn, connectRes, inner.el,
        inner.events ++ (if inner.conn.state = c.state then [] else [⟨c.identifier, state, cause⟩])⟩
  else
    ⟨c, UA_STATUSCODE_BADINTERNALERROR, el, []⟩

/-- UA_ReaderGroup_findRGbyId: walk the connections in list order, within each
the ReaderGroups in list order, and return the indices of the first group whose
identifier matches. -/
def UA_ReaderGroup_findRGbyId : List UA_PubSubConnection → Nat → Option (Nat × Nat)
  | [], _ => none
  | c :: cs, i =>
    match c.readerGroups.findIdx? (fun g => g.identifier == i) with
    | some ri => some (0, ri)
    | none =>
      match UA_ReaderGroup_findRGbyId cs i with
      | some p => some (p.1 + 1, p.2)
      | none => none

/-- Borrowed lookup of the ReaderGroup at connection index ci, group index ri. -/
def getRG (m : UA_PubSubManager) (ci ri : Nat) : Option UA_ReaderGroup :=
  (m.connections[ci]?).bind (fun c => c.readerGroups[ri]?)

/-- Replace the ReaderGroup at connection index ci, group index ri. -/
def setRG (m : UA_PubSubManager) (ci ri : Nat) (rg : UA_ReaderGroup) : UA_PubSubManager :=
  match m.connections[ci]? with
  | none => m
  | some c => ⟨m.connections.set ci { c with readerGroups := c.readerGroups.set ri rg }⟩

/-- UA_ReaderGroup_create on its connection. The collaborator steps (connection
regist, deep config copy, identifier generation, information model, MQTT topic
assignment) are modelled as succeeding; the fresh identifier is supplied by the
caller. A calloc-initialised group starts Disabled with no callback registered.
Blocking-socket configs without a custom callback are refused, as is a
connection whose configuration is frozen. -/
def UA_ReaderGroup_create (newId : Nat) (conn : UA_PubSubConnection)
    (cfg : UA_ReaderGroupConfig) : UA_PubSubConnection × Nat :=
  if ¬cfg.hasAddCustomCallback ∧ cfg.enableBlockingSocket then
    (conn, UA_STATUSCODE_BADNOTSUPPORTED)
  else if conn.configurationFreezeCounter > 0 then
    (conn, UA_STATUSCODE_BADCONFIGURATIONERROR)
  else
    let cfg1 := { cfg with
      subscribingInterval := if cfg.subscribingInterval ≤ 0 then 5 else cfg.subscribingInterval }
    let cfg2 :=
      if cfg1.enableBlockingSocket then { cfg1 with timeout := 0 }
      else if cfg1.timeout = 0 then { cfg1 with timeout := 1000 }
      else cfg1
    let g : UA_ReaderGroup :=
      { identifier := newId, state := UA_PUBSUBSTATE_DISABLED, configurationFrozen := false,
        subscribeCallbackId := 0, securityTokenId := 0, nonceSequenceNumber := 0,
        securityPolicyContextSet := false, keyStorageActive := false,
        config := cfg2, readers := [] }
    ({ conn with readerGroups := g :: conn.readerGroups }, UA_STATUSCODE_GOOD)

/-- UA_ReaderGroup_remove for the group at index ri of its connection. A frozen
configuration refuses removal. The pending cyclic callback is cancelled only
when the group's state is Operational; then the readers and owned resources are
released and the group is unlinked and freed. -/
def UA_ReaderGroup_remove (el : List Nat) (conn : UA_PubSubConnection) (ri : Nat) :
    UA_PubSubConnection × List Nat × Nat :=
  match conn.readerGroups[ri]? with
  | none => (conn, el, UA_STATUSCODE_BADNOTFOUND)
  | some rg =>
    if rg.configurationFrozen then (conn, el, UA_STATUSCODE_BADCONFIGURATIONERROR)
    else
      let el1 :=
        if rg.state = UA_PUBSUBSTATE_OPERATIONAL then
          (UA_ReaderGroup_removeSubscribeCallback el rg).2
        else el
      ({ conn with readerGroups := conn.readerGroups.eraseIdx ri }, el1, UA_STATUSCODE_GOOD)

/-- The per-field loop of the RT fixed-size validation in
UA_ReaderGroup_freezeConfiguration, over the parallel arrays
targetVariables[i] / dataSetMetaData.fields[i]. For each index: the target node
must expose an external value backend (else BadNotSupported); on success the
external value pointer is cached in the target variable; then a String or
ByteString field with maxStringLength 0 is refused, and so is any remaining
field that is neither numeric nor Boolean. The returned list holds the target
variables with the mutations performed before the first failure. -/
def applyFieldChecks : List (UA_FieldTargetVariable × UA_FieldMetaData) →
    List UA_FieldTargetVariable × Nat
  | [] => ([], UA_STATUSCODE_GOOD)
  | (tv, f) :: rest =>
    if tv.hasExternalBackend = false then
      (tv :: rest.map Prod.fst, UA_STATUSCODE_BADNOTSUPPORTED)
    else
      let tv1 := { tv with externalDataValueSet := true }
      if f.isStringOrByteString ∧ f.maxStringLength = 0 then
        (tv1 :: rest.map Prod.fst, UA_STATUSCODE_BADNOTSUPPORTED)
      else if ¬f.isNumericOrBoolean then
        (tv1 :: rest.map Prod.fst, UA_STATUSCODE_BADNOTSUPPORTED)
      else
        let r := applyFieldChecks rest
        (tv1 :: r.1, r.2)

/-- UA_ReaderGroup_freezeConfiguration for the group at index ri. An already
frozen group returns Good at once. Otherwise the connection's freeze counter is
incremented and the group and all its readers are marked frozen before any
validation; every subsequent error path returns with those mutations in place.
Non-RT configurations stop there with Good. RT fixed-size requires a single
reader (the source dereferences the first reader unconditionally, so the
empty-reader case is undefined in C and modelled as returning Good), UADP
message settings, a pointer-free publisherId, and the per-field checks; on
success the reader's offset buffer is cleared and the state is set to its own
current value, which can downgrade Operational to PreOperational. -/
def UA_ReaderGroup_freezeConfiguration (freshId : Nat) (el : List Nat)
    (conn : UA_PubSubConnection) (ri : Nat) : UA_PubSubConnection × List Nat × Nat :=
  match conn.readerGroups[ri]? with
  | none => (conn, el, UA_STATUSCODE_BADNOTFOUND)
  | some rg =>
    if rg.configurationFrozen then (conn, el, UA_STATUSCODE_GOOD)
    else
      let counter1 := conn.configurationFreezeCounter + 1
      let rg1 := { rg with
        configurationFrozen := true
        readers := rg.readers.map (fun r => { r with configurationFrozen := true }) }
      if rg1.config.rtLevelFixedSize = false then
        ({ conn with
            configurationFreezeCounter := counter1
            readerGroups := conn.readerGroups.set ri rg1 }, el, UA_STATUSCODE_GOOD)
      else if rg1.readers.length > 1 then
        ({ conn with
            configurationFreezeCounter := counter1
            readerGroups := conn.readerGroups.set ri rg1 }, el, UA_STATUSCODE_BADNOTIMPLEMENTED)
      else
        match rg1.readers.head? with
        | none =>
          ({ conn with
              configurationFreezeCounter := counter1
              readerGroups := conn.readerGroups.set ri rg1 }, el, UA_STATUSCODE_GOOD)
        | some dsr =>
          if dsr.msgIsUadp = false then
            ({ conn with
                configurationFreezeCounter := counter1
                readerGroups := conn.readerGroups.set ri rg1 }, el, UA_STATUSCODE_BADNOTSUPPORTED)
          else if dsr.publisherIdPointerFree = false then
            ({ conn with
                configurationFreezeCounter := counter1
                readerGroups := conn.readerGroups.set ri rg1 }, el, UA_STATUSCODE_BADNOTSUPPORTED)
          else
            let fc := applyFieldChecks (dsr.targetVariables.zip dsr.fields)
            let dsr1 := { dsr with targetVariables := fc.1 }
            if fc.2 ≠ UA_STATUSCODE_GOOD then
              ({ conn with
                  configurationFreezeCounter := counter1
                  readerGroups := conn.readerGroups.set ri { rg1 with readers := rg1.readers.set 0 dsr1 } },
               el, fc.2)
            else
              let dsr2 := { dsr1 with bufferedMessageSet := false }
              let rg2 := { rg1 with readers := rg1.readers.set 0 dsr2 }
              let e := UA_ReaderGroup_setPubSubState freshId el rg2 rg2.state UA_STATUSCODE_GOOD
              ({ conn with
                  configurationFreezeCounter := counter1
                  readerGroups := conn.readerGroups.set ri e.rg }, e.el, e.ret)

/-- UA_ReaderGroup_unfreezeConfiguration for the group at index ri: the
connection's freeze counter is decremented unconditionally (there is no check
that the group is actually frozen), the frozen flags of the group and its
readers are cleared, and the readers' offset buffers are cleared. -/
def UA_ReaderGroup_unfreezeConfiguration (conn : UA_PubSubConnection) (ri : Nat) :
    UA_PubSubConnection × Nat :=
  match conn.readerGroups[ri]? with
  | none => (conn, UA_STATUSCODE_BADNOTFOUND)
  | some rg =>
    let rg1 := { rg with
      configurationFrozen := false
      readers := rg.readers.map (fun r => { r with
        configurationFrozen := false
        bufferedMessageSet := false }) }
    ({ conn with
        configurationFreezeCounter := conn.configurationFreezeCounter - 1
        readerGroups := conn.readerGroups.set ri rg1 }, UA_STATUSCODE_GOOD)

/-- UA_Server_freezeReaderGroupConfiguration on a single connection: find the
group by identifier (BadNotFound otherwise), then freeze it. -/
def UA_Server_freezeReaderGroupConfiguration (freshId : Nat) (el : List Nat)
    (conn : UA_PubSubConnection) (rgId : Nat) : UA_PubSubConnection × List Nat × Nat :=
  match conn.readerGroups.findIdx? (fun g => g.identifier == rgId) with
  | none => (conn, el, UA_STATUSCODE_BADNOTFOUND)
  | some ri => UA_ReaderGroup_freezeConfiguration freshId el conn ri

/-- UA_Server_unfreezeReaderGroupConfiguration on a single connection. -/
def UA_Server_unfreezeReaderGroupConfiguration (conn : UA_PubSubConnection) (rgId : Nat) :
    UA_PubSubConnection × Nat :=
  match conn.readerGroups.findIdx? (fun g => g.identifier == rgId) with
  | none => (conn, UA_STATUSCODE_BADNOTFOUND)
  | some ri => UA_ReaderGroup_unfreezeConfiguration conn ri

/-- UA_Server_removeReaderGroup on a single connection. -/
def UA_Server_removeReaderGroup (el : List Nat) (conn : UA_PubSubConnection) (rgId : Nat) :
    UA_PubSubConnection × List Nat × Nat :=
  match conn.readerGroups.findIdx? (fun g => g.identifier == rgId) with
  | none => (conn, el, UA_STATUSCODE_BADNOTFOUND)
  | some ri => UA_ReaderGroup_remove el conn ri

/-- UA_Server_enableReaderGroup: find the group; when the linked connection is
Operational request PreOperational for the group, when the connection is
Disabled, Paused or PreOperational request Paused for the group; any other
connection state (including Error) leaves ret at its BadNotFound initial value
and changes nothing. The connection's own state is never touched. -/
def UA_Server_enableReaderGroup (freshId : Nat) (el : List Nat) (m : UA_PubSubManager)
    (rgId : Nat) : UA_PubSubManager × List Nat × Nat :=
  match UA_ReaderGroup_findRGbyId m.connections rgId with
  | none => (m, el, UA_STATUSCODE_BADNOTFOUND)
  | some p =>
    match m.connections[p.1]? with
    | none => (m, el, UA_STATUSCODE_BADNOTFOUND)
    | some c =>
      match c.readerGroups[p.2]? with
      | none => (m, el, UA_STATUSCODE_BADNOTFOUND)
      | some rg =>
        if c.state = UA_PUBSUBSTATE_OPERATIONAL then
          let e := UA_ReaderGroup_setPubSubState freshId el rg
                     UA_PUBSUBSTATE_PREOPERATIONAL UA_STATUSCODE_GOOD
          (setRG m p.1 p.2 e.rg, e.el, e.ret)
        else if c.state = UA_PUBSUBSTATE_DISABLED ∨ c.state = UA_PUBSUBSTATE_PAUSED ∨
                c.state = UA_PUBSUBSTATE_PREOPERATIONAL then
          let e := UA_ReaderGroup_setPubSubState freshId el rg
                     UA_PUBSUBSTATE_PAUSED UA_STATUSCODE_GOOD
          (setRG m p.1 p.2 e.rg, e.el, e.ret)
        else (m, el, UA_STATUSCODE_BADNOTFOUND)

/-- setReaderGroupEncryptionKeys. newContextRes / setKeysRes are the statuses of
the SecurityPolicy collaborator calls newContext / setSecurityKeys; newContext
is modelled as installing the context exactly when it succeeds. JSON encoding
and a missing security policy are refused with BadInternalError before any
mutation. A changed securityTokenId is stored and resets nonceSequenceNumber to
1; then the context is created on first use or the keys are updated. -/
def setReaderGroupEncryptionKeys (newContextRes setKeysRes : Nat) (m : UA_PubSubManager)
    (rgId securityTokenId : Nat) : UA_PubSubManager × Nat :=
  match UA_ReaderGroup_findRGbyId m.connections rgId with
  | none => (m, UA_STATUSCODE_BADNOTFOUND)
  | some p =>
    match getRG m p.1 p.2 with
    | none => (m, UA_STATUSCODE_BADNOTFOUND)
    | some rg =>
      if rg.config.encodingJson then (m, UA_STATUSCODE_BADINTERNALERROR)
      else if ¬rg.config.hasSecurityPolicy then (m, UA_STATUSCODE_BADINTERNALERROR)
      else
        let rg1 :=
          if securityTokenId ≠ rg.securityTokenId then
            { rg with
                securityTokenId := securityTokenId
                nonceSequenceNumber := 1 }
          else rg
        if ¬rg1.securityPolicyContextSet then
          let rg2 := if newContextRes = UA_STATUSCODE_GOOD then
                       { rg1 with securityPolicyContextSet := true }
                     else rg1
          (setRG m p.1 p.2 rg2, newContextRes)
        else
          (setRG m p.1 p.2 rg1, setKeysRes)

/-- UA_Server_setReaderGroupActivateKey. activateRes is the status of the
collaborator UA_PubSubKeyStorage_activateKeyToChannelContext. ret is initialised
to BadNotFound and is never set to Good: a failed activation is returned, but a
successful one falls through to the BadNotFound initial value. -/
def UA_Server_setReaderGroupActivateKey (activateRes : Nat) (m : UA_PubSubManager)
    (rgId : Nat) : Nat :=
  match UA_ReaderGroup_findRGbyId m.connections rgId with
  | none => UA_STATUSCODE_BADNOTFOUND
  | some p =>
    match getRG m p.1 p.2 with
    | none => UA_STATUSCODE_BADNOTFOUND
    | some rg =>
      if rg.keyStorageActive then
        if activateRes ≠ UA_STATUSCODE_GOOD then activateRes
        else UA_STATUSCODE_BADNOTFOUND
      else UA_STATUSCODE_BADNOTFOUND

/-- Status flow of UA_ReaderGroupConfig_copy with encryption compiled in. The
arguments are the statuses of the three sub-copies (name, groupProperties,
securityGroupId). The source accumulates with res |= for the first two but then
overwrites with a plain res = for the securityGroupId copy; dst is cleared only
when the final res is not Good. Returns (returned status, dst cleared). -/
def UA_ReaderGroupConfig_copy (nameRes propsRes sgidRes : Nat) : Nat × Bool :=
  let res1 := Nat.lor UA_STATUSCODE_GOOD nameRes
  let res2 := Nat.lor res1 propsRes
  let res3 := sgidRes
  if res3 ≠ UA_STATUSCODE_GOOD then (res3, true) else (res3, false)

/-- Status flow of UA_PubSubConnectionConfig_copy: the publisherId string copy
(only for a String publisherId) and the five owned-buffer sub-copies are
accumulated with res |=, and dst is cleared when the accumulated status is not
Good. Returns (returned status, dst cleared). -/
def UA_PubSubConnectionConfig_copy (pubIdIsString : Bool)
    (pubIdRes nameRes addrRes uriRes tsRes propsRes : Nat) : Nat × Bool :=
  let r1 := if pubIdIsString then Nat.lor UA_STATUSCODE_GOOD pubIdRes else UA_STATUSCODE_GOOD
  let r2 := Nat.lor r1 nameRes
  let r3 := Nat.lor r2 addrRes
  let r4 := Nat.lor r3 uriRes
  let r5 := Nat.lor r4 tsRes
  let r6 := Nat.lor r5 propsRes
  if r6 ≠ UA_STATUSCODE_GOOD then (r6, true) else (r6, false)

/-- Control-plane API calls on one connection, as issued through the public
identifier-keyed entry points (group creation, removal, freeze, unfreeze). -/
inductive PubSubOp where
  | addGroup (newId : Nat) (cfg : UA_ReaderGroupConfig)
  | removeGroup (rgId : Nat)
  | freezeGroup (rgId : Nat)
  | unfreezeGroup (rgId : Nat)
deriving DecidableEq

/-- One API call against the connection and the EventLoop registrations,
discarding the status code as a caller may. -/
def stepPubSubOp (s : UA_PubSubConnection × List Nat) (op : PubSubOp) :
    UA_PubSubConnection × List Nat :=
  match op with
  | .addGroup newId cfg => ((UA_ReaderGroup_create newId s.1 cfg).1, s.2)
  | .removeGroup rgId =>
    let r := UA_Server_removeReaderGroup s.2 s.1 rgId
    (r.1, r.2.1)
  | .freezeGroup rgId =>
    let r := UA_Server_freezeReaderGroupConfiguration 0 s.2 s.1 rgId
    (r.1, r.2.1)
  | .unfreezeGroup rgId => ((UA_Server_unfreezeReaderGroupConfiguration s.1 rgId).1, s.2)

/-- A sequence of API calls. -/
def runPubSubOps (s : UA_PubSubConnection × List Nat) (ops : List PubSubOp) :
    UA_PubSubConnection × List Nat :=
  ops.foldl stepPubSubOp s

/-- Number of child ReaderGroups whose configurationFrozen flag is set. -/
def countFrozen (conn : UA_PubSubConnection) : Nat :=
  (conn.readerGroups.filter (fun g => g.configurationFrozen)).length

/-- Spec invariant P1: the connection's freeze counter equals the number of its
frozen child groups. -/
def freezeInvariant (conn : UA_PubSubConnection) : Prop :=
  conn.configurationFreezeCounter = (countFrozen conn : Int)

/-- A plain ReaderGroup config: 5 ms interval, 1000 ms timeout, non-blocking, no
custom callback, no RT, UADP encoding, no security policy. -/
def cfgBase : UA_ReaderGroupConfig :=
  ⟨5, 1000, false, false, false, false, false⟩

/-- cfgBase with rtLevel = FixedSize. -/
def cfgRT : UA_ReaderGroupConfig :=
  { cfgBase with rtLevelFixedSize := true }

/-- cfgBase with a security policy configured. -/
def cfgSec : UA_ReaderGroupConfig :=
  { cfgBase with hasSecurityPolicy := true }

/-- A reader whose single metadata field is a String with maxStringLength = 0
(a dynamic-length string), whose target node has an external value backend, with
UADP message settings and a pointer-free publisherId. -/
def dsrDynString : UA_DataSetReader :=
  ⟨10, UA_PUBSUBSTATE_DISABLED, false, false, true, true, [⟨true, 0, false⟩], [⟨true, false⟩]⟩

/-- An unfrozen RT fixed-size ReaderGroup containing only dsrDynString. -/
def rgRT : UA_ReaderGroup :=
  ⟨2, UA_PUBSUBSTATE_DISABLED, false, 0, 0, 0, false, false, cfgRT, [dsrDynString]⟩

/-- A connection holding rgRT, freeze counter 0. -/
def connC2 : UA_PubSubConnection :=
  ⟨1, UA_PUBSUBSTATE_OPERATIONAL, 0, [rgRT]⟩

/-- A Disabled ReaderGroup with no readers and no callback registered. -/
def rgDis : UA_ReaderGroup :=
  ⟨2, UA_PUBSUBSTATE_DISABLED, false, 0, 0, 0, false, false, cfgBase, []⟩

/-- An Operational ReaderGroup with no readers and no callback registered. -/
def rgOp : UA_ReaderGroup :=
  ⟨2, UA_PUBSUBSTATE_OPERATIONAL, false, 0, 0, 0, false, false, cfgBase, []⟩

/-- A manager with one Disabled connection holding the Disabled group rgDis. -/
def mC3 : UA_PubSubManager :=
  ⟨[⟨1, UA_PUBSUBSTATE_DISABLED, 0, [rgDis]⟩]⟩

/-- A Disabled connection with no groups. -/
def connW : UA_PubSubConnection :=
  ⟨1, UA_PUBSUBSTATE_DISABLED, 0, []⟩

/-- A PreOperational ReaderGroup whose cyclic callback id 5 is registered. -/
def rgPre5 : UA_ReaderGroup :=
  ⟨2, UA_PUBSUBSTATE_PREOPERATIONAL, false, 5, 0, 0, false, false, cfgBase, []⟩

/-- An Operational ReaderGroup whose cyclic callback id 5 is registered. -/
def rgOp5 : UA_ReaderGroup :=
  ⟨2, UA_PUBSUBSTATE_OPERATIONAL, false, 5, 0, 0, false, false, cfgBase, []⟩

/-- A connection holding rgPre5. -/
def connC5 : UA_PubSubConnection :=
  ⟨1, UA_PUBSUBSTATE_OPERATIONAL, 0, [rgPre5]⟩

/-- A connection holding rgOp5. -/
def connC5op : UA_PubSubConnection :=
  ⟨1, UA_PUBSUBSTATE_OPERATIONAL, 0, [rgOp5]⟩

/-- A fresh Operational connection with no groups and freeze counter 0, as left
by UA_PubSubConnection_create after a successful connect. -/
def connC1 : UA_PubSubConnection :=
  ⟨1, UA_PUBSUBSTATE_OPERATIONAL, 0, []⟩

/-- API sequence: add groups 2 and 3, freeze group 2, then unfreeze group 3,
which was never frozen. -/
def opsC1 : List PubSubOp :=
  [.addGroup 2 cfgBase, .addGroup 3 cfgBase, .freezeGroup 2, .unfreezeGroup 3]

/-- A ReaderGroup with a security policy, no context yet, token 0, nonce 0. -/
def rgSec : UA_ReaderGroup :=
  ⟨2, UA_PUBSUBSTATE_DISABLED, false, 0, 0, 0, false, false, cfgSec, []⟩

/-- A manager holding rgSec. -/
def mC8 : UA_PubSubManager :=
  ⟨[⟨1, UA_PUBSUBSTATE_OPERATIONAL, 0, [rgSec]⟩]⟩

/-- A ReaderGroup whose key storage has a current item. -/
def rgKS : UA_ReaderGroup :=
  ⟨2, UA_PUBSUBSTATE_OPERATIONAL, false, 0, 0, 0, false, true, cfgBase, []⟩

/-- A manager holding rgKS. -/
def mC9 : UA_PubSubManager :=
  ⟨[⟨1, UA_PUBSUBSTATE_OPERATIONAL, 0, [rgKS]⟩]⟩

/-- A manager with one connection in Error holding the Disabled group rgDis. -/
def mC10 : UA_PubSubManager :=
  ⟨[⟨5, UA_PUBSUBSTATE_ERROR, 0, [rgDis]⟩]⟩

/-- Updating a list at a valid index makes the lookup at that index return the
new element. -/
theorem list_set_get {α : Type} : ∀ (l : List α) (i : Nat) (a b : α),
    l[i]? = some b → (l.set i a)[i]? = some a
  | [], i, a, b, h => by simp at h
  | x :: xs, 0, a, b, h => by simp
  | x :: xs, i + 1, a, b, h => by
    simpa using list_set_get xs i a b (by simpa using h)

/-- getRG after setRG at the same indices returns the new group, provided the
indices were valid. -/
theorem getRG_setRG (m : UA_PubSubManager) (ci ri : Nat) (rg rg2 : UA_ReaderGroup)
    (h : getRG m ci ri = some rg) : getRG (setRG m ci ri rg2) ci ri = some rg2 := by
  unfold getRG setRG at *
  cases hc : m.connections[ci]? with
  | none => rw [hc] at h; simp at h
  | some c =>
    rw [hc] at h
    simp only [Option.some_bind] at h
    have h2 := list_set_get m.connections ci
      { c with readerGroups := c.readerGroups.set ri rg2 } c hc
    dsimp only
    rw [h2]
    simp only [Option.some_bind]
    exact list_set_get c.readerGroups ri rg2 rg h

/-- The notifications of UA_ReaderGroup_setPubSubState: none when the requested
state equals the stored state at entry, otherwise exactly one carrying the
group's state after the call. -/
theorem rgSetPubSubState_events (freshId : Nat) (el : List Nat) (rg : UA_ReaderGroup)
    (s cause : Nat) :
    (UA_ReaderGroup_setPubSubState freshId el rg s cause).events =
      (if s = rg.state then []
       else [⟨(UA_ReaderGroup_setPubSubState freshId el rg s cause).rg.identifier,
              (UA_ReaderGroup_setPubSubState freshId el rg s cause).rg.state, cause⟩]) := rfl

/-- UA_ReaderGroup_setPubSubState never changes the group's identifier. -/
theorem rgSetPubSubState_identifier (freshId : Nat) (el : List Nat) (rg : UA_ReaderGroup)
    (s cause : Nat) :
    (UA_ReaderGroup_setPubSubState freshId el rg s cause).rg.identifier = rg.identifier := by
  show (rgDispatch freshId el rg s cause).1.identifier = rg.identifier
  unfold rgDispatch UA_ReaderGroup_setPubSubState_disable UA_ReaderGroup_setPubSubState_paused
    UA_ReaderGroup_setPubSubState_preoperational UA_ReaderGroup_setPubSubState_operational
    UA_ReaderGroup_setPubSubState_error UA_ReaderGroup_addSubscribeCallback
    UA_ReaderGroup_removeSubscribeCallback
  repeat' split
  all_goals rfl

/-- A list of notifications none of which concerns entity i filters to nothing
under the entity-i filter. -/
theorem filter_entity_nil : ∀ (evs : List CbEvent) (i : Nat),
    (∀ e ∈ evs, e.entity ≠ i) → evs.filter (fun e => e.entity == i) = []
  | [], _, _ => rfl
  | e :: es, i, h => by
    have h1 : (e.entity == i) = false :=
      beq_eq_false_iff_ne.mpr (h e (List.mem_cons_self e es))
    rw [List.filter_cons, if_neg (by simp [h1])]
    exact filter_entity_nil es i (fun x hx => h x (List.mem_cons_of_mem e hx))

/-- Every notification emitted while disabling the groups of a connection
concerns one of those groups. -/
theorem disableGroups_entity (freshId st : Nat) :
    ∀ (el : List Nat) (gs : List UA_ReaderGroup) (e : CbEvent),
      e ∈ (disableGroups freshId st el gs).2.2 → ∃ g ∈ gs, e.entity = g.identifier
  | el, [], e => by simp [disableGroups]
  | el, g :: gs, e => by
    simp only [disableGroups, List.mem_append]
    intro h
    cases h with
    | inl h1 =>
      refine ⟨g, List.mem_cons_self g gs, ?_⟩
      rw [rgSetPubSubState_events] at h1
      split at h1
      · simp at h1
      · simp only [List.mem_singleton] at h1
        rw [h1]
        exact rgSetPubSubState_identifier freshId el g st UA_STATUSCODE_BADRESOURCEUNAVAILABLE
    | inr h2 =>
      obtain ⟨g2, hg2, he⟩ := disableGroups_entity freshId st _ gs e h2
      exact ⟨g2, List.mem_cons_of_mem g hg2, he⟩

/-- Own notifications of UA_PubSubConnection_setPubSubState when the transport
connect succeeds: assuming the child groups carry identifiers different from the
connection's, the connection-level notification fires exactly once iff the
stored state changed, and it carries the requested state value. -/
theorem connSetPubSubState_own_events (freshId : Nat) (el : List Nat)
    (c : UA_PubSubConnection) (s cause : Nat)
    (hid : ∀ g ∈ c.readerGroups, g.identifier ≠ c.identifier) :
    (UA_PubSubConnection_setPubSubState UA_STATUSCODE_GOOD freshId el c s cause).events.filter
        (fun e => e.entity == c.identifier) =
      (if (UA_PubSubConnection_setPubSubState UA_STATUSCODE_GOOD freshId el c s cause).conn.state
            = c.state
       then [] else [⟨c.identifier, s, cause⟩]) := by
  unfold UA_PubSubConnection_setPubSubState connSetStateDown
  split
  · split
    · rename_i hs
      simp [hs]
    · rename_i hs
      have hchild : (disableGroups freshId s el c.readerGroups).2.2.filter
          (fun e => e.entity == c.identifier) = [] := by
        apply filter_entity_nil
        intro e he
        obtain ⟨g, hg, hge⟩ := disableGroups_entity freshId s el c.readerGroups e he
        rw [hge]
        exact hid g hg
      simp [List.filter_append, hchild, hs]
  · split
    · split
      · split
        · dsimp only
          split
          · rename_i hnew
            simp [hnew]
          · rename_i hnew
            simp [hnew]
        · rename_i hgood
          exact absurd rfl hgood
      · split
        · dsimp only
          split
          · rename_i hnew
            simp [hnew]
          · rename_i hnew
            simp [hnew]
        · rename_i hgood
          exact absurd rfl hgood
    · simp

/-- C1: the claim states that after any sequence of API calls every connection's
configurationFreezeCounter equals the number of child ReaderGroups with
configurationFrozen = true, and in particular that unfreezing a group that is
not frozen leaves the counter at that count. The code decrements the counter
unconditionally in UA_ReaderGroup_unfreezeConfiguration: after adding groups 2
and 3, freezing group 2 and unfreezing the never-frozen group 3, the counter is
0 while one group is still frozen, so the invariant fails on a reachable state. -/
theorem claim_C1_freezeCounter_bug :
    (runPubSubOps (connC1, []) opsC1).1.configurationFreezeCounter = 0 ∧
    countFrozen (runPubSubOps (connC1, []) opsC1).1 = 1 ∧
    ¬ freezeInvariant (runPubSubOps (connC1, []) opsC1).1 := by
  unfold freezeInvariant
  decide

/-- C2 counterexample: the claim states that when freezeConfiguration rejects a
dynamic-length String field with BadNotSupported, the configurationFrozen flags
revert to their pre-call values. On connC2 (one RT fixed-size group, one reader
with a String field of maxStringLength 0) the call returns BadNotSupported but
the group and its reader remain marked frozen and the connection counter remains
incremented. -/
theorem claim_C2_counterexample :
    (UA_ReaderGroup_freezeConfiguration 0 [] connC2 0).2.2 = UA_STATUSCODE_BADNOTSUPPORTED ∧
    rgRT.configurationFrozen = false ∧
    ((UA_ReaderGroup_freezeConfiguration 0 [] connC2 0).1.readerGroups.map
      (fun g => g.configurationFrozen)) = [true] ∧
    ((UA_ReaderGroup_freezeConfiguration 0 [] connC2 0).1.readerGroups.map
      (fun g => g.readers.map (fun r => r.configurationFrozen))) = [[true]] ∧
    (UA_ReaderGroup_freezeConfiguration 0 [] connC2 0).1.configurationFreezeCounter = 1 := by
  decide

/-- C3 counterexample: the claim states that enabling a ReaderGroup whose linked
Connection is Disabled or Paused transitions that Connection to PreOperational.
On mC3 (connection Disabled, group 2 Disabled) UA_Server_enableReaderGroup
leaves the connection Disabled and sets the group to Paused instead. -/
theorem claim_C3_counterexample :
    ((UA_Server_enableReaderGroup 0 [] mC3 2).1.connections.map (fun c => c.state))
      = [UA_PUBSUBSTATE_DISABLED] ∧
    UA_PUBSUBSTATE_DISABLED ≠ UA_PUBSUBSTATE_PREOPERATIONAL ∧
    ((UA_Server_enableReaderGroup 0 [] mC3 2).1.connections.map
      (fun c => c.readerGroups.map (fun g => g.state))) = [[UA_PUBSUBSTATE_PAUSED]] := by
  decide

/-- C4 counterexample: the claim states the stateChangeCallback fires exactly
once iff the entity's stored state changed, with the stored value. Requesting
Paused on the Operational group rgOp leaves the stored state unchanged yet fires
the callback; requesting Operational on the Disabled empty connection connW
stores PreOperational but notifies the requested value Operational. -/
theorem claim_C4_counterexample :
    (UA_ReaderGroup_setPubSubState 0 [] rgOp UA_PUBSUBSTATE_PAUSED UA_STATUSCODE_GOOD).rg.state
      = rgOp.state ∧
    (UA_ReaderGroup_setPubSubState 0 [] rgOp UA_PUBSUBSTATE_PAUSED UA_STATUSCODE_GOOD).events
      = [⟨2, UA_PUBSUBSTATE_OPERATIONAL, UA_STATUSCODE_GOOD⟩] ∧
    (UA_PubSubConnection_setPubSubState UA_STATUSCODE_GOOD 0 [] connW
        UA_PUBSUBSTATE_OPERATIONAL UA_STATUSCODE_GOOD).conn.state
      = UA_PUBSUBSTATE_PREOPERATIONAL ∧
    (UA_PubSubConnection_setPubSubState UA_STATUSCODE_GOOD 0 [] connW
        UA_PUBSUBSTATE_OPERATIONAL UA_STATUSCODE_GOOD).events
      = [⟨1, UA_PUBSUBSTATE_OPERATIONAL, UA_STATUSCODE_GOOD⟩] ∧
    UA_PUBSUBSTATE_OPERATIONAL ≠ UA_PUBSUBSTATE_PREOPERATIONAL := by
  decide

/-- C5: the claim states that UA_ReaderGroup_remove cancels a registered cyclic
callback in any state, including PreOperational, before the group is unlinked
and freed. Removing the PreOperational group rgPre5 (callback id 5 registered)
succeeds and unlinks the group while id 5 stays registered on the EventLoop;
only the Operational group rgOp5 gets its callback cancelled. -/
theorem claim_C5_bug :
    (UA_ReaderGroup_remove [5] connC5 0).2.2 = UA_STATUSCODE_GOOD ∧
    (UA_ReaderGroup_remove [5] connC5 0).1.readerGroups = [] ∧
    (UA_ReaderGroup_remove [5] connC5 0).2.1 = [5] ∧
    (UA_ReaderGroup_remove [5] connC5op 0).2.1 = [] := by
  decide

/-- C6 counterexample: the claim states that an unknown (out-of-enum) target
state yields BadInternalError. On the ReaderGroup rgDis the unknown target 7
returns the initial BadInvalidArgument instead. -/
theorem claim_C6_counterexample :
    (UA_ReaderGroup_setPubSubState 0 [] rgDis 7 UA_STATUSCODE_GOOD).ret
      = UA_STATUSCODE_BADINVALIDARGUMENT ∧
    UA_STATUSCODE_BADINVALIDARGUMENT ≠ UA_STATUSCODE_BADINTERNALERROR := by
  decide

/-- C7: the claim states both config copy functions leave dst cleared and return
the first failing sub-copy status whenever any sub-copy fails. In
UA_ReaderGroupConfig_copy the securityGroupId copy is accumulated with a plain
assignment (res =) instead of res |=, so a groupProperties copy failing with
BadOutOfMemory followed by a succeeding securityGroupId copy makes the function
return Good without clearing dst; UA_PubSubConnectionConfig_copy handles the
analogous single failure correctly, isolating the slip. -/
theorem claim_C7_bug :
    UA_ReaderGroupConfig_copy UA_STATUSCODE_GOOD UA_STATUSCODE_BADOUTOFMEMORY
        UA_STATUSCODE_GOOD = (UA_STATUSCODE_GOOD, false) ∧
    UA_PubSubConnectionConfig_copy false UA_STATUSCODE_GOOD UA_STATUSCODE_GOOD
        UA_STATUSCODE_BADOUTOFMEMORY UA_STATUSCODE_GOOD UA_STATUSCODE_GOOD
        UA_STATUSCODE_GOOD = (UA_STATUSCODE_BADOUTOFMEMORY, true) := by
  decide

/-- C4 amended: for a ReaderGroup the stateChangeCallback fires exactly once iff
the requested state differs from the stored state at entry (even when the stored
state is unchanged), and the value passed is the state stored after the call;
for a Connection (when the transport connect succeeds) it fires exactly once iff
the stored state changed, but the value passed is the requested state, which can
differ from the stored state. -/
theorem claim_C4_amended :
    (∀ (freshId : Nat) (el : List Nat) (rg : UA_ReaderGroup) (s cause : Nat),
       (UA_ReaderGroup_setPubSubState freshId el rg s cause).events =
         (if s = rg.state then []
          else [⟨(UA_ReaderGroup_setPubSubState freshId el rg s cause).rg.identifier,
                 (UA_ReaderGroup_setPubSubState freshId el rg s cause).rg.state, cause⟩])) ∧
    (∀ (freshId : Nat) (el : List Nat) (c : UA_PubSubConnection) (s cause : Nat),
       (∀ g ∈ c.readerGroups, g.identifier ≠ c.identifier) →
       (UA_PubSubConnection_setPubSubState UA_STATUSCODE_GOOD freshId el c s cause).events.filter
           (fun e => e.entity == c.identifier) =
         (if (UA_PubSubConnection_setPubSubState UA_STATUSCODE_GOOD freshId el c s cause).conn.state
               = c.state
          then [] else [⟨c.identifier, s, cause⟩])) :=
  ⟨rgSetPubSubState_events, connSetPubSubState_own_events⟩

/-- C4 witness: the amended statement applied to the Operational group rgOp with
target Paused and to the Disabled connection connW with target Operational. -/
theorem claim_C4_witness :
    (∀ g ∈ connW.readerGroups, g.identifier ≠ connW.identifier) ∧
    (UA_ReaderGroup_setPubSubState 0 [] rgOp UA_PUBSUBSTATE_PAUSED UA_STATUSCODE_GOOD).events =
      (if UA_PUBSUBSTATE_PAUSED = rgOp.state then []
       else [⟨(UA_ReaderGroup_setPubSubState 0 [] rgOp UA_PUBSUBSTATE_PAUSED
                 UA_STATUSCODE_GOOD).rg.identifier,
              (UA_ReaderGroup_setPubSubState 0 [] rgOp UA_PUBSUBSTATE_PAUSED
                 UA_STATUSCODE_GOOD).rg.state, UA_STATUSCODE_GOOD⟩]) ∧
    (UA_PubSubConnection_setPubSubState UA_STATUSCODE_GOOD 0 [] connW
        UA_PUBSUBSTATE_OPERATIONAL UA_STATUSCODE_GOOD).events.filter
        (fun e => e.entity == connW.identifier) =
      (if (UA_PubSubConnection_setPubSubState UA_STATUSCODE_GOOD 0 [] connW
             UA_PUBSUBSTATE_OPERATIONAL UA_STATUSCODE_GOOD).conn.state = connW.state
       then [] else [⟨connW.identifier, UA_PUBSUBSTATE_OPERATIONAL, UA_STATUSCODE_GOOD⟩]) :=
  ⟨by decide, claim_C4_amended.1 0 [] rgOp UA_PUBSUBSTATE_PAUSED UA_STATUSCODE_GOOD,
   claim_C4_amended.2 0 [] connW UA_PUBSUBSTATE_OPERATIONAL UA_STATUSCODE_GOOD (by decide)⟩

/-- C2 amended: when an RT fixed-size group with a single UADP, pointer-free
reader fails the per-field validation (e.g. a String field with maxStringLength
0), freezeConfiguration returns BadNotSupported and leaves the group's state
unchanged, but the group stays marked frozen and the connection's freeze counter
stays incremented: the partial freeze is not reverted. -/
theorem claim_C2_amended (freshId : Nat) (el : List Nat) (conn : UA_PubSubConnection)
    (ri : Nat) (rg : UA_ReaderGroup) (dsr : UA_DataSetReader)
    (h1 : conn.readerGroups[ri]? = some rg)
    (h2 : rg.configurationFrozen = false)
    (h3 : rg.config.rtLevelFixedSize = true)
    (h4 : rg.readers = [dsr])
    (h5 : dsr.msgIsUadp = true)
    (h6 : dsr.publisherIdPointerFree = true)
    (h7 : (applyFieldChecks (dsr.targetVariables.zip dsr.fields)).2
            = UA_STATUSCODE_BADNOTSUPPORTED) :
    (UA_ReaderGroup_freezeConfiguration freshId el conn ri).2.2
        = UA_STATUSCODE_BADNOTSUPPORTED ∧
    ((UA_ReaderGroup_freezeConfiguration freshId el conn ri).1.readerGroups[ri]?).map
        (fun g => g.state) = some rg.state ∧
    ((UA_ReaderGroup_freezeConfiguration freshId el conn ri).1.readerGroups[ri]?).map
        (fun g => g.configurationFrozen) = some true ∧
    (UA_ReaderGroup_freezeConfiguration freshId el conn ri).1.configurationFreezeCounter
        = conn.configurationFreezeCounter + 1 := by
  have hne : UA_STATUSCODE_BADNOTSUPPORTED ≠ UA_STATUSCODE_GOOD := by decide
  have hset : ∀ x : UA_ReaderGroup, (conn.readerGroups.set ri x)[ri]? = some x :=
    fun x => list_set_get conn.readerGroups ri x rg h1
  simp [UA_ReaderGroup_freezeConfiguration, h1, h2, h3, h4, h5, h6, h7, hne, hset]

/-- C2 witness: the amended statement applied to connC2 / rgRT / dsrDynString. -/
theorem claim_C2_witness :
    connC2.readerGroups[0]? = some rgRT ∧
    rgRT.configurationFrozen = false ∧
    rgRT.config.rtLevelFixedSize = true ∧
    ((UA_ReaderGroup_freezeConfiguration 0 [] connC2 0).1.readerGroups[0]?).map
        (fun g => g.configurationFrozen) = some true ∧
    (UA_ReaderGroup_freezeConfiguration 0 [] connC2 0).1.configurationFreezeCounter
        = connC2.configurationFreezeCounter + 1 := by
  have h := claim_C2_amended 0 [] connC2 0 rgRT dsrDynString (by decide) (by decide)
    (by decide) (by decide) (by decide) (by decide) (by decide)
  exact ⟨by decide, by decide, by decide, h.2.2.1, h.2.2.2⟩

/-- C3 amended: UA_Server_enableReaderGroup never changes the state of the
linked Connection; when the connection is Disabled or Paused and the group is
Disabled, the group transitions to Paused (not PreOperational) and the call
returns Good. The connection's connect attempt is not triggered by this path. -/
theorem claim_C3_amended (freshId : Nat) (el : List Nat) (m : UA_PubSubManager)
    (rgId ci ri : Nat) (c : UA_PubSubConnection) (rg : UA_ReaderGroup)
    (hf : UA_ReaderGroup_findRGbyId m.connections rgId = some (ci, ri))
    (hc : m.connections[ci]? = some c)
    (hg : c.readerGroups[ri]? = some rg) :
    ((UA_Server_enableReaderGroup freshId el m rgId).1.connections[ci]?).map
        (fun x => x.state) = some c.state ∧
    ((c.state = UA_PUBSUBSTATE_DISABLED ∨ c.state = UA_PUBSUBSTATE_PAUSED) →
      rg.state = UA_PUBSUBSTATE_DISABLED →
      (getRG (UA_Server_enableReaderGroup freshId el m rgId).1 ci ri).map
          (fun g2 => g2.state) = some UA_PUBSUBSTATE_PAUSED ∧
      (UA_Server_enableReaderGroup freshId el m rgId).2.2 = UA_STATUSCODE_GOOD) := by
  have hrg0 : getRG m ci ri = some rg := by simp [getRG, hc, hg]
  have hsetget : ∀ x : UA_ReaderGroup, getRG (setRG m ci ri x) ci ri = some x :=
    fun x => getRG_setRG m ci ri rg x hrg0
  have hsetconn : ∀ x : UA_ReaderGroup,
      ((setRG m ci ri x).connections[ci]?).map (fun y => y.state) = some c.state := by
    intro x
    simp only [setRG, hc]
    rw [list_set_get m.connections ci { c with readerGroups := c.readerGroups.set ri x } c hc]
    rfl
  constructor
  · simp only [UA_Server_enableReaderGroup, hf, hc, hg]
    split
    · exact hsetconn _
    · split
      · exact hsetconn _
      · simp [hc]
  · intro hcs hrs
    have hne : ¬ c.state = UA_PUBSUBSTATE_OPERATIONAL := by
      rcases hcs with h | h <;>
        simp [h, UA_PUBSUBSTATE_DISABLED, UA_PUBSUBSTATE_PAUSED, UA_PUBSUBSTATE_OPERATIONAL]
    have hyes : c.state = UA_PUBSUBSTATE_DISABLED ∨ c.state = UA_PUBSUBSTATE_PAUSED ∨
        c.state = UA_PUBSUBSTATE_PREOPERATIONAL := by
      rcases hcs with h | h
      · exact Or.inl h
      · exact Or.inr (Or.inl h)
    have hpaused : UA_ReaderGroup_setPubSubState freshId el rg UA_PUBSUBSTATE_PAUSED
        UA_STATUSCODE_GOOD =
        { rg := { rg with state := UA_PUBSUBSTATE_PAUSED }, ret := UA_STATUSCODE_GOOD,
          el := el,
          events := [⟨rg.identifier, UA_PUBSUBSTATE_PAUSED, UA_STATUSCODE_GOOD⟩] } := by
      simp [UA_ReaderGroup_setPubSubState, rgDispatch, UA_ReaderGroup_setPubSubState_paused,
        hrs, UA_PUBSUBSTATE_PAUSED, UA_PUBSUBSTATE_DISABLED]
    simp only [UA_Server_enableReaderGroup, hf, hc, hg]
    rw [if_neg hne, if_pos hyes, hpaused]
    exact ⟨by rw [hsetget]; rfl, rfl⟩

/-- C3 witness: the amended statement applied to mC3, whose single connection is
Disabled and holds the Disabled group 2. -/
theorem claim_C3_witness :
    UA_ReaderGroup_findRGbyId mC3.connections 2 = some (0, 0) ∧
    ((UA_Server_enableReaderGroup 0 [] mC3 2).1.connections[0]?).map (fun x => x.state)
      = some UA_PUBSUBSTATE_DISABLED ∧
    (getRG (UA_Server_enableReaderGroup 0 [] mC3 2).1 0 0).map (fun g2 => g2.state)
      = some UA_PUBSUBSTATE_PAUSED ∧
    (UA_Server_enableReaderGroup 0 [] mC3 2).2.2 = UA_STATUSCODE_GOOD := by
  have h := claim_C3_amended 0 [] mC3 2 0 0 ⟨1, UA_PUBSUBSTATE_DISABLED, 0, [rgDis]⟩ rgDis
    (by decide) (by decide) (by decide)
  have h2 := h.2 (Or.inl rfl) (by decide)
  exact ⟨by decide, h.1, h2.1, h2.2⟩

/-- C6 amended: an unknown (out-of-enum) target state yields BadInvalidArgument
on a ReaderGroup and BadInternalError on a Connection, in both cases without
mutating the entity's state; requesting Paused on an Operational ReaderGroup
yields BadNotSupported without mutation. -/
theorem claim_C6_amended :
    (∀ (freshId : Nat) (el : List Nat) (rg : UA_ReaderGroup) (s cause : Nat),
      s ≠ UA_PUBSUBSTATE_DISABLED → s ≠ UA_PUBSUBSTATE_PAUSED →
      s ≠ UA_PUBSUBSTATE_PREOPERATIONAL → s ≠ UA_PUBSUBSTATE_OPERATIONAL →
      s ≠ UA_PUBSUBSTATE_ERROR →
      (UA_ReaderGroup_setPubSubState freshId el rg s cause).ret
          = UA_STATUSCODE_BADINVALIDARGUMENT ∧
      (UA_ReaderGroup_setPubSubState freshId el rg s cause).rg = rg) ∧
    (∀ (connectRes freshId : Nat) (el : List Nat) (c : UA_PubSubConnection) (s cause : Nat),
      s ≠ UA_PUBSUBSTATE_DISABLED → s ≠ UA_PUBSUBSTATE_PAUSED →
      s ≠ UA_PUBSUBSTATE_PREOPERATIONAL → s ≠ UA_PUBSUBSTATE_OPERATIONAL →
      s ≠ UA_PUBSUBSTATE_ERROR →
      (UA_PubSubConnection_setPubSubState connectRes freshId el c s cause).ret
          = UA_STATUSCODE_BADINTERNALERROR ∧
      (UA_PubSubConnection_setPubSubState connectRes freshId el c s cause).conn = c) ∧
    (∀ (freshId : Nat) (el : List Nat) (rg : UA_ReaderGroup) (cause : Nat),
      rg.state = UA_PUBSUBSTATE_OPERATIONAL →
      (UA_ReaderGroup_setPubSubState freshId el rg UA_PUBSUBSTATE_PAUSED cause).ret
          = UA_STATUSCODE_BADNOTSUPPORTED ∧
      (UA_ReaderGroup_setPubSubState freshId el rg UA_PUBSUBSTATE_PAUSED cause).rg = rg) := by
  refine ⟨?_, ?_, ?_⟩
  · intro freshId el rg s cause h0 h1 h4 h2 h3
    have hd : rgDispatch freshId el rg s cause = (rg, el, UA_STATUSCODE_BADINVALIDARGUMENT) := by
      unfold rgDispatch
      rw [if_neg h0, if_neg h1, if_neg h4, if_neg h2, if_neg h3]
    exact ⟨by show (rgDispatch freshId el rg s cause).2.2 = _; rw [hd],
           by show (rgDispatch freshId el rg s cause).1 = _; rw [hd]⟩
  · intro connectRes freshId el c s cause h0 h1 h4 h2 h3
    unfold UA_PubSubConnection_setPubSubState
    rw [if_neg (by simp [h0, h1, h3]), if_neg (by simp [h2, h4])]
    exact ⟨rfl, rfl⟩
  · intro freshId el rg cause hop
    have hd : rgDispatch freshId el rg UA_PUBSUBSTATE_PAUSED cause
        = (rg, el, UA_STATUSCODE_BADNOTSUPPORTED) := by
      simp [rgDispatch, UA_ReaderGroup_setPubSubState_paused, hop,
        UA_PUBSUBSTATE_PAUSED, UA_PUBSUBSTATE_DISABLED, UA_PUBSUBSTATE_OPERATIONAL]
    exact ⟨by show (rgDispatch freshId el rg UA_PUBSUBSTATE_PAUSED cause).2.2 = _; rw [hd],
           by show (rgDispatch freshId el rg UA_PUBSUBSTATE_PAUSED cause).1 = _; rw [hd]⟩

/-- C6 witness: the amended statement applied to rgDis and connW with the
out-of-enum target state 9, and to the Operational group rgOp with target
Paused. -/
theorem claim_C6_witness :
    ((9 : Nat) ≠ UA_PUBSUBSTATE_DISABLED ∧ rgOp.state = UA_PUBSUBSTATE_OPERATIONAL) ∧
    ((UA_ReaderGroup_setPubSubState 0 [] rgDis 9 UA_STATUSCODE_GOOD).ret
        = UA_STATUSCODE_BADINVALIDARGUMENT ∧
     (UA_ReaderGroup_setPubSubState 0 [] rgDis 9 UA_STATUSCODE_GOOD).rg = rgDis) ∧
    ((UA_PubSubConnection_setPubSubState UA_STATUSCODE_GOOD 0 [] connW 9
        UA_STATUSCODE_GOOD).ret = UA_STATUSCODE_BADINTERNALERROR ∧
     (UA_PubSubConnection_setPubSubState UA_STATUSCODE_GOOD 0 [] connW 9
        UA_STATUSCODE_GOOD).conn = connW) ∧
    ((UA_ReaderGroup_setPubSubState 0 [] rgOp UA_PUBSUBSTATE_PAUSED
        UA_STATUSCODE_GOOD).ret = UA_STATUSCODE_BADNOTSUPPORTED ∧
     (UA_ReaderGroup_setPubSubState 0 [] rgOp UA_PUBSUBSTATE_PAUSED
        UA_STATUSCODE_GOOD).rg = rgOp) :=
  ⟨⟨by decide, by decide⟩,
   claim_C6_amended.1 0 [] rgDis 9 UA_STATUSCODE_GOOD (by decide) (by decide) (by decide)
     (by decide) (by decide),
   claim_C6_amended.2.1 UA_STATUSCODE_GOOD 0 [] connW 9 UA_STATUSCODE_GOOD (by decide)
     (by decide) (by decide) (by decide) (by decide),
   claim_C6_amended.2.2 0 [] rgOp UA_STATUSCODE_GOOD (by decide)⟩

/-- C8: with a non-JSON encoding and a configured security policy,
setReaderGroupEncryptionKeys creates the policy context on the first call
(when the collaborator newContext succeeds) and updates keys on later calls
(returning the setSecurityKeys status); a supplied securityTokenId different
from the stored one is stored and resets nonceSequenceNumber to 1, while an
unchanged token id leaves both the token and the nonce sequence number
unchanged. -/
theorem claim_C8_encryptionKeys (newContextRes setKeysRes : Nat) (m : UA_PubSubManager)
    (rgId tokenId ci ri : Nat) (rg : UA_ReaderGroup)
    (hf : UA_ReaderGroup_findRGbyId m.connections rgId = some (ci, ri))
    (hg : getRG m ci ri = some rg)
    (hj : rg.config.encodingJson = false)
    (hp : rg.config.hasSecurityPolicy = true) :
    ((rg.securityPolicyContextSet = false → newContextRes = UA_STATUSCODE_GOOD →
        (getRG (setReaderGroupEncryptionKeys newContextRes setKeysRes m rgId tokenId).1
            ci ri).map (fun g => g.securityPolicyContextSet) = some true ∧
        (setReaderGroupEncryptionKeys newContextRes setKeysRes m rgId tokenId).2
            = UA_STATUSCODE_GOOD) ∧
     (rg.securityPolicyContextSet = true →
        (getRG (setReaderGroupEncryptionKeys newContextRes setKeysRes m rgId tokenId).1
            ci ri).map (fun g => g.securityPolicyContextSet) = some true ∧
        (setReaderGroupEncryptionKeys newContextRes setKeysRes m rgId tokenId).2
            = setKeysRes) ∧
     (tokenId ≠ rg.securityTokenId →
        (getRG (setReaderGroupEncryptionKeys newContextRes setKeysRes m rgId tokenId).1
            ci ri).map (fun g => (g.securityTokenId, g.nonceSequenceNumber))
          = some (tokenId, 1)) ∧
     (tokenId = rg.securityTokenId →
        (getRG (setReaderGroupEncryptionKeys newContextRes setKeysRes m rgId tokenId).1
            ci ri).map (fun g => (g.securityTokenId, g.nonceSequenceNumber))
          = some (rg.securityTokenId, rg.nonceSequenceNumber))) := by
  have hsetget : ∀ x : UA_ReaderGroup, getRG (setRG m ci ri x) ci ri = some x :=
    fun x => getRG_setRG m ci ri rg x hg
  refine ⟨?_, ?_, ?_, ?_⟩
  · intro hctx hnew
    simp only [setReaderGroupEncryptionKeys, hf, hg, hj, hp]
    by_cases ht : tokenId = rg.securityTokenId
    · simp [ht, hctx, hnew, hsetget]
    · simp [ht, hctx, hnew, hsetget]
  · intro hctx
    simp only [setReaderGroupEncryptionKeys, hf, hg, hj, hp]
    by_cases ht : tokenId = rg.securityTokenId
    · simp [ht, hctx, hsetget]
    · simp [ht, hctx, hsetget]
  · intro ht
    simp only [setReaderGroupEncryptionKeys, hf, hg, hj, hp]
    by_cases hctx : rg.securityPolicyContextSet
    · simp [ht, hctx, hsetget]
    · by_cases hnew : newContextRes = UA_STATUSCODE_GOOD
      · simp [ht, hctx, hnew, hsetget]
      · simp [ht, hctx, hnew, hsetget]
  · intro ht
    simp only [setReaderGroupEncryptionKeys, hf, hg, hj, hp]
    by_cases hctx : rg.securityPolicyContextSet
    · simp [ht, hctx, hsetget]
    · by_cases hnew : newContextRes = UA_STATUSCODE_GOOD
      · simp [ht, hctx, hnew, hsetget]
      · simp [ht, hctx, hnew, hsetget]

/-- C8 witness: the confirmed statement applied to mC8 (group 2, no context yet,
stored token 0) with supplied token 5 and succeeding collaborators. -/
theorem claim_C8_witness :
    rgSec.config.encodingJson = false ∧ rgSec.config.hasSecurityPolicy = true ∧
    (getRG (setReaderGroupEncryptionKeys UA_STATUSCODE_GOOD UA_STATUSCODE_GOOD mC8 2 5).1
        0 0).map (fun g => g.securityPolicyContextSet) = some true ∧
    (getRG (setReaderGroupEncryptionKeys UA_STATUSCODE_GOOD UA_STATUSCODE_GOOD mC8 2 5).1
        0 0).map (fun g => (g.securityTokenId, g.nonceSequenceNumber)) = some (5, 1) := by
  have h := claim_C8_encryptionKeys UA_STATUSCODE_GOOD UA_STATUSCODE_GOOD mC8 2 5 0 0 rgSec
    (by decide) (by decide) (by decide) (by decide)
  exact ⟨by decide, by decide, (h.1 (by decide) rfl).1, h.2.2.1 (by decide)⟩

/-- C9: UA_Server_setReaderGroupActivateKey initialises ret to BadNotFound and
never sets it to Good: any call returns a status different from Good, and when
the group exists, its key storage has a current item and the activation
collaborator succeeds, the function still returns BadNotFound. -/
theorem claim_C9_activateKey :
    (∀ (activateRes : Nat) (m : UA_PubSubManager) (rgId : Nat),
      UA_Server_setReaderGroupActivateKey activateRes m rgId ≠ UA_STATUSCODE_GOOD) ∧
    (∀ (m : UA_PubSubManager) (rgId ci ri : Nat) (rg : UA_ReaderGroup),
      UA_ReaderGroup_findRGbyId m.connections rgId = some (ci, ri) →
      getRG m ci ri = some rg → rg.keyStorageActive = true →
      UA_Server_setReaderGroupActivateKey UA_STATUSCODE_GOOD m rgId
        = UA_STATUSCODE_BADNOTFOUND) := by
  constructor
  · intro activateRes m rgId
    unfold UA_Server_setReaderGroupActivateKey
    split
    · decide
    · split
      · decide
      · split
        · split
          · rename_i h
            exact h
          · decide
        · decide
  · intro m rgId ci ri rg hf hg hks
    simp [UA_Server_setReaderGroupActivateKey, hf, hg, hks]

/-- C9 witness: the statement applied to mC9, whose group 2 has an active key
storage item, with a succeeding activation collaborator. -/
theorem claim_C9_witness :
    rgKS.keyStorageActive = true ∧
    UA_Server_setReaderGroupActivateKey UA_STATUSCODE_GOOD mC9 2
      = UA_STATUSCODE_BADNOTFOUND ∧
    UA_Server_setReaderGroupActivateKey UA_STATUSCODE_BADINTERNALERROR mC9 2
      ≠ UA_STATUSCODE_GOOD :=
  ⟨by decide,
   claim_C9_activateKey.2 mC9 2 0 0 rgKS (by decide) (by decide) (by decide),
   claim_C9_activateKey.1 UA_STATUSCODE_BADINTERNALERROR mC9 2⟩

/-- C10: when the linked Connection of an existing ReaderGroup is in state
Error, UA_Server_enableReaderGroup takes neither enable branch, so it returns
the BadNotFound initial value and leaves the whole manager (in particular the
group's state) unchanged. -/
theorem claim_C10_enableError (freshId : Nat) (el : List Nat) (m : UA_PubSubManager)
    (rgId ci ri : Nat) (c : UA_PubSubConnection)
    (hf : UA_ReaderGroup_findRGbyId m.connections rgId = some (ci, ri))
    (hc : m.connections[ci]? = some c)
    (he : c.state = UA_PUBSUBSTATE_ERROR) :
    UA_Server_enableReaderGroup freshId el m rgId = (m, el, UA_STATUSCODE_BADNOTFOUND) := by
  simp only [UA_Server_enableReaderGroup, hf, hc]
  cases hg : c.readerGroups[ri]? with
  | none => rfl
  | some rg =>
    simp [he, UA_PUBSUBSTATE_ERROR, UA_PUBSUBSTATE_OPERATIONAL, UA_PUBSUBSTATE_DISABLED,
      UA_PUBSUBSTATE_PAUSED, UA_PUBSUBSTATE_PREOPERATIONAL]

/-- C10 witness: the statement applied to mC10, whose only connection is in
Error and holds group 2. -/
theorem claim_C10_witness :
    (mC10.connections[0]?).map (fun c => c.state) = some UA_PUBSUBSTATE_ERROR ∧
    UA_Server_enableReaderGroup 0 [] mC10 2 = (mC10, [], UA_STATUSCODE_BADNOTFOUND) :=
  ⟨by decide,
   claim_C10_enableError 0 [] mC10 2 0 0 ⟨5, UA_PUBSUBSTATE_ERROR, 0, [rgDis]⟩
     (by decide) (by decide) (by decide)⟩
